import Mathlib

/-!
# Shallow embedding of the smartmirror gateway endpoints

This file embeds the two endpoint modules of the repository,
`api/v1/endpoints/weather.py` and `api/v1/endpoints/geolocator.py`, and
proves properties of the handlers.

The external service clients (`services.geolocator.getLocation`,
`services.weather.getCurrentWeather` / `getHourlyForecast` /
`getDailyForecast`) are not part of the two source files; a handler run is
therefore parameterised by a `Services` record giving the outcome of each
possible outbound call.  The request-argument parsers only deliver optional
values, so parsed arguments are records of `Option` fields.

Each handler returns, besides the response dictionary and the HTTP code of
the Python code, the list of outbound service calls it performed, in order,
so that invocation properties (which client was called, with which
arguments, and in which order) can be stated.

Coordinates are an arbitrary type `γ` (the handlers only pass them
through), and the weather payload an arbitrary type `δ` (opaque
pass-through data).
-/

namespace SmartMirror

/-- Modelled from the spec: the module `api.v1.http_codes` is not under
`src/` (only the two endpoint files are).  Per the spec, "callers always
receive a JSON envelope with a `status` field mirroring the HTTP status
code" and the envelopes are `{status:200, data:...}` and `{status:503,
type:"EXT_ERR", error_message:...}`, so `_200` is the integer 200, `_503`
is the integer 503 and `EXT_ERR` is the error-kind tag `"EXT_ERR"`. -/
def http_codes.c200 : Nat := 200

/-- Modelled from the spec: see `http_codes.c200`. -/
def http_codes.c503 : Nat := 503

/-- Modelled from the spec: see `http_codes.c200`. -/
def http_codes.EXT_ERR : String := "EXT_ERR"

/-- The normalized location record produced by the geolocation client
(spec §3): latitude, longitude, region code and city.  Coordinates have
the opaque type `γ`. -/
structure Location (γ : Type) where
  latitude : γ
  longitude : γ
  region_code : String
  city : String
  deriving DecidableEq

/-- The `data` field of a response dictionary: either a `Location` (for
the geolocator endpoint) or an opaque weather result (for the weather
endpoints). -/
inductive Payload (γ δ : Type) where
  | location : Location γ → Payload γ δ
  | weather : δ → Payload γ δ
  deriving DecidableEq

/-- The Python response dictionary.  A key that the handler does not put
into the dictionary is `none`. -/
structure ResponseDict (γ δ : Type) where
  status : Nat
  data : Option (Payload γ δ) := none
  type : Option String := none
  error_message : Option String := none
  deriving DecidableEq

/-- One outbound service call, with the arguments it was made with. -/
inductive Call (γ : Type) where
  | getLocation : Call γ
  | getCurrentWeather : γ → γ → Call γ
  | getHourlyForecast : String → String → Call γ
  | getDailyForecast : String → String → Call γ
  deriving DecidableEq

/-- The outcomes of the outbound service calls available to a handler
during one request.  Each client returns a pair: the result (`none` on
failure) and a status value, exactly as the Python call sites unpack
`result, status = ...`. -/
structure Services (γ δ : Type) where
  getLocation : Option (Location γ) × Nat
  getCurrentWeather : γ → γ → Option δ × Nat
  getHourlyForecast : String → String → Option δ × Nat
  getDailyForecast : String → String → Option δ × Nat

/-- The result of one handler run: the response dictionary, the HTTP
code, and the outbound calls made, in order. -/
abbrev HandlerResult (γ δ : Type) := ResponseDict γ δ × Nat × List (Call γ)

/-- Arguments delivered by `current_weather_parser`: optional `lat` and
`lon`. -/
structure CurrentWeatherArgs (γ : Type) where
  lat : Option γ
  lon : Option γ

/-- Arguments delivered by `hourly_forecast_parser` and
`daily_forecast_parser`: optional `state` and `city`. -/
structure ForecastArgs where
  state : Option String
  city : Option String

/-- `Geolocator.get` from `api/v1/endpoints/geolocator.py`: one call to
`services.geolocator.getLocation()`; on `None` the 503 envelope, else the
200 envelope with the location as `data`.  The status component of the
pair is bound but never used in the source. -/
def Geolocator.get {γ δ : Type} (svc : Services γ δ) : HandlerResult γ δ :=
  match svc.getLocation.1 with
  | none =>
      ({ status := http_codes.c503, type := some http_codes.EXT_ERR,
         error_message := some "Failed to make geolocation request" }, 503,
       [Call.getLocation])
  | some location =>
      ({ status := http_codes.c200, data := some (Payload.location location) }, 200,
       [Call.getLocation])

/-- The weather section shared by the two branches of
`CurrentWeather.get` (the Python code falls through to it with `lat` and
`lon` set): one call to `services.weather.getCurrentWeather(lat, lon)`;
on `None` the 503 envelope with message `"Failed to make weather
request"`, else the 200 envelope.  `calls` are the outbound calls already
made before this section. -/
def CurrentWeather.fetch {γ δ : Type} (svc : Services γ δ) (lat lon : γ)
    (calls : List (Call γ)) : HandlerResult γ δ :=
  match (svc.getCurrentWeather lat lon).1 with
  | none =>
      ({ status := http_codes.c503, type := some http_codes.EXT_ERR,
         error_message := some "Failed to make weather request" }, 503,
       calls ++ [Call.getCurrentWeather lat lon])
  | some weather =>
      ({ status := http_codes.c200, data := some (Payload.weather weather) }, 200,
       calls ++ [Call.getCurrentWeather lat lon])

/-- `CurrentWeather.get` from `api/v1/endpoints/weather.py`: if `lat` or
`lon` is absent, resolve the location first (early 503 return if that
fails) and use its latitude and longitude; otherwise use the supplied
values.  Then fetch the current weather. -/
def CurrentWeather.get {γ δ : Type} (svc : Services γ δ)
    (args : CurrentWeatherArgs γ) : HandlerResult γ δ :=
  match args.lat, args.lon with
  | some lat, some lon =>
      -- lat and lon were provided, parse them
      CurrentWeather.fetch svc lat lon []
  | _, _ =>
      -- lat and lon were not provided, determine location
      match svc.getLocation.1 with
      | none =>
          ({ status := http_codes.c503, type := some http_codes.EXT_ERR,
             error_message := some "Failed to make geolocation request" }, 503,
           [Call.getLocation])
      | some location =>
          CurrentWeather.fetch svc location.latitude location.longitude
            [Call.getLocation]

/-- The Python expression `city.replace(' ', '_')` from the two forecast
handlers: the pattern is the single character `' '`, so the replacement
is a per-character map sending every space to an underscore.  (Stated as
a character map rather than `String.replace` so that it evaluates by
kernel reduction.) -/
def replaceSpaces (s : String) : String :=
  String.mk (s.data.map fun c => if c = ' ' then '_' else c)

/-- The weather section shared by the two branches of
`HourlyForecast.get`: one call to
`services.weather.getHourlyForecast(state, city)`; on `None` the 503
envelope with message `"Failed to make hourly forecast request"`, else
the 200 envelope. -/
def HourlyForecast.fetch {γ δ : Type} (svc : Services γ δ) (state city : String)
    (calls : List (Call γ)) : HandlerResult γ δ :=
  match (svc.getHourlyForecast state city).1 with
  | none =>
      ({ status := http_codes.c503, type := some http_codes.EXT_ERR,
         error_message := some "Failed to make hourly forecast request" }, 503,
       calls ++ [Call.getHourlyForecast state city])
  | some weather =>
      ({ status := http_codes.c200, data := some (Payload.weather weather) }, 200,
       calls ++ [Call.getHourlyForecast state city])

/-- `HourlyForecast.get` from `api/v1/endpoints/weather.py`: if `state`
or `city` is absent, resolve the location first (early 503 return if that
fails) and use its `region_code` and `city` unchanged; otherwise use the
supplied values, replacing every space in `city` with an underscore.
Then fetch the hourly forecast. -/
def HourlyForecast.get {γ δ : Type} (svc : Services γ δ)
    (args : ForecastArgs) : HandlerResult γ δ :=
  match args.state, args.city with
  | some state, some city =>
      -- city = city.replace(' ', '_')
      HourlyForecast.fetch svc state (replaceSpaces city) []
  | _, _ =>
      -- state and city were not provided, determine location
      match svc.getLocation.1 with
      | none =>
          ({ status := http_codes.c503, type := some http_codes.EXT_ERR,
             error_message := some "Failed to make geolocation request" }, 503,
           [Call.getLocation])
      | some location =>
          HourlyForecast.fetch svc location.region_code location.city
            [Call.getLocation]

/-- The weather section shared by the two branches of
`DailyForecast.get`: one call to
`services.weather.getDailyForecast(state, city)`; on `None` the 503
envelope with message `"Failed to make daily forecast request"`, else the
200 envelope. -/
def DailyForecast.fetch {γ δ : Type} (svc : Services γ δ) (state city : String)
    (calls : List (Call γ)) : HandlerResult γ δ :=
  match (svc.getDailyForecast state city).1 with
  | none =>
      ({ status := http_codes.c503, type := some http_codes.EXT_ERR,
         error_message := some "Failed to make daily forecast request" }, 503,
       calls ++ [Call.getDailyForecast state city])
  | some weather =>
      ({ status := http_codes.c200, data := some (Payload.weather weather) }, 200,
       calls ++ [Call.getDailyForecast state city])

/-- `DailyForecast.get` from `api/v1/endpoints/weather.py`: same shape as
`HourlyForecast.get`, calling `getDailyForecast`. -/
def DailyForecast.get {γ δ : Type} (svc : Services γ δ)
    (args : ForecastArgs) : HandlerResult γ δ :=
  match args.state, args.city with
  | some state, some city =>
      -- city = city.replace(' ', '_')
      DailyForecast.fetch svc state (replaceSpaces city) []
  | _, _ =>
      -- state and city were not provided, determine location
      match svc.getLocation.1 with
      | none =>
          ({ status := http_codes.c503, type := some http_codes.EXT_ERR,
             error_message := some "Failed to make geolocation request" }, 503,
           [Call.getLocation])
      | some location =>
          DailyForecast.fetch svc location.region_code location.city
            [Call.getLocation]

/-! ## Shape of the produced envelopes -/

/-- A handler result is well-shaped when it is either a success envelope
(HTTP 200, `status` 200, a `data` field, no `type`, no `error_message`)
or a failure envelope (HTTP 503, `status` 503, no `data` field, `type`
`EXT_ERR`, an `error_message`). -/
def goodEnvelope {γ δ : Type} (res : HandlerResult γ δ) : Prop :=
  ((res.2).1 = 200 ∧ res.1.status = 200 ∧ (res.1.data).isSome = true ∧
      res.1.type = none ∧ res.1.error_message = none) ∨
    ((res.2).1 = 503 ∧ res.1.status = 503 ∧ res.1.data = none ∧
      res.1.type = some http_codes.EXT_ERR ∧ (res.1.error_message).isSome = true)

theorem goodEnvelope_geolocator {γ δ : Type} (svc : Services γ δ) :
    goodEnvelope (Geolocator.get svc) := by
  cases h : svc.getLocation.1 <;>
    simp [Geolocator.get, h, goodEnvelope, http_codes.c200, http_codes.c503]

theorem goodEnvelope_currentFetch {γ δ : Type} (svc : Services γ δ) (lat lon : γ)
    (calls : List (Call γ)) : goodEnvelope (CurrentWeather.fetch svc lat lon calls) := by
  cases h : (svc.getCurrentWeather lat lon).1 <;>
    simp [CurrentWeather.fetch, h, goodEnvelope, http_codes.c200, http_codes.c503]

theorem goodEnvelope_current {γ δ : Type} (svc : Services γ δ)
    (args : CurrentWeatherArgs γ) : goodEnvelope (CurrentWeather.get svc args) := by
  obtain ⟨la, lo⟩ := args
  cases la <;> cases lo <;>
    try exact goodEnvelope_currentFetch svc _ _ []
  all_goals
    cases h : svc.getLocation.1 with
    | none => simp [CurrentWeather.get, h, goodEnvelope, http_codes.c503]
    | some location =>
        simp only [CurrentWeather.get, h]
        exact goodEnvelope_currentFetch svc _ _ _

theorem goodEnvelope_hourlyFetch {γ δ : Type} (svc : Services γ δ) (state city : String)
    (calls : List (Call γ)) : goodEnvelope (HourlyForecast.fetch svc state city calls) := by
  cases h : (svc.getHourlyForecast state city).1 <;>
    simp [HourlyForecast.fetch, h, goodEnvelope, http_codes.c200, http_codes.c503]

theorem goodEnvelope_hourly {γ δ : Type} (svc : Services γ δ)
    (args : ForecastArgs) : goodEnvelope (HourlyForecast.get svc args) := by
  obtain ⟨st, ci⟩ := args
  cases st <;> cases ci <;>
    try exact goodEnvelope_hourlyFetch svc _ _ []
  all_goals
    cases h : svc.getLocation.1 with
    | none => simp [HourlyForecast.get, h, goodEnvelope, http_codes.c503]
    | some location =>
        simp only [HourlyForecast.get, h]
        exact goodEnvelope_hourlyFetch svc _ _ _

theorem goodEnvelope_dailyFetch {γ δ : Type} (svc : Services γ δ) (state city : String)
    (calls : List (Call γ)) : goodEnvelope (DailyForecast.fetch svc state city calls) := by
  cases h : (svc.getDailyForecast state city).1 <;>
    simp [DailyForecast.fetch, h, goodEnvelope, http_codes.c200, http_codes.c503]

theorem goodEnvelope_daily {γ δ : Type} (svc : Services γ δ)
    (args : ForecastArgs) : goodEnvelope (DailyForecast.get svc args) := by
  obtain ⟨st, ci⟩ := args
  cases st <;> cases ci <;>
    try exact goodEnvelope_dailyFetch svc _ _ []
  all_goals
    cases h : svc.getLocation.1 with
    | none => simp [DailyForecast.get, h, goodEnvelope, http_codes.c503]
    | some location =>
        simp only [DailyForecast.get, h]
        exact goodEnvelope_dailyFetch svc _ _ _

/-! ## Claims -/

/-- C3: every request to every endpoint produces exactly one response
envelope, and it is either a success envelope with a `data` field and
HTTP code 200, or a failure envelope with HTTP code 503 and no `data`
field; no envelope mixes the two shapes. -/
theorem C3_envelope_never_partial {γ δ : Type} (svc : Services γ δ)
    (cargs : CurrentWeatherArgs γ) (hargs dargs : ForecastArgs) :
    goodEnvelope (Geolocator.get svc) ∧
      goodEnvelope (CurrentWeather.get svc cargs) ∧
      goodEnvelope (HourlyForecast.get svc hargs) ∧
      goodEnvelope (DailyForecast.get svc dargs) :=
  ⟨goodEnvelope_geolocator svc, goodEnvelope_current svc cargs,
    goodEnvelope_hourly svc hargs, goodEnvelope_daily svc dargs⟩

/-- C4: when both `lat` and `lon` are supplied to `/weather/current`, the
geolocation client is never invoked, and the only outbound call is
`getCurrentWeather` with exactly the supplied values. -/
theorem C4_supplied_coords_skip_geolocation {γ δ : Type} (svc : Services γ δ)
    (lat lon : γ) :
    ((CurrentWeather.get svc { lat := some lat, lon := some lon }).2).2 =
      [Call.getCurrentWeather lat lon] := by
  show ((CurrentWeather.fetch svc lat lon []).2).2 = _
  cases h : (svc.getCurrentWeather lat lon).1 <;>
    simp [CurrentWeather.fetch, h]

theorem status_eq_code_of_goodEnvelope {γ δ : Type} {res : HandlerResult γ δ}
    (h : goodEnvelope res) : res.1.status = (res.2).1 := by
  rcases h with ⟨hc, hs, -⟩ | ⟨hc, hs, -⟩ <;> rw [hs, hc]

theorem code_200_or_503_of_goodEnvelope {γ δ : Type} {res : HandlerResult γ δ}
    (h : goodEnvelope res) : (res.2).1 = 200 ∨ (res.2).1 = 503 := by
  rcases h with ⟨hc, -⟩ | ⟨hc, -⟩
  · exact Or.inl hc
  · exact Or.inr hc

/-- C6: for every request to every endpoint, the `status` field inside
the returned envelope equals the HTTP status code returned alongside it
(200 with 200, 503 with 503). -/
theorem C6_envelope_status_mirrors_http_code {γ δ : Type} (svc : Services γ δ)
    (cargs : CurrentWeatherArgs γ) (hargs dargs : ForecastArgs) :
    (Geolocator.get svc).1.status = ((Geolocator.get svc).2).1 ∧
      (CurrentWeather.get svc cargs).1.status = ((CurrentWeather.get svc cargs).2).1 ∧
      (HourlyForecast.get svc hargs).1.status = ((HourlyForecast.get svc hargs).2).1 ∧
      (DailyForecast.get svc dargs).1.status = ((DailyForecast.get svc dargs).2).1 :=
  ⟨status_eq_code_of_goodEnvelope (goodEnvelope_geolocator svc),
    status_eq_code_of_goodEnvelope (goodEnvelope_current svc cargs),
    status_eq_code_of_goodEnvelope (goodEnvelope_hourly svc hargs),
    status_eq_code_of_goodEnvelope (goodEnvelope_daily svc dargs)⟩

/-- C8: for every request to every endpoint and every combination of
arguments and provider outcomes, the HTTP code is either 200 or 503; in
particular the documented 400 code is never constructed. -/
theorem C8_http_code_never_400 {γ δ : Type} (svc : Services γ δ)
    (cargs : CurrentWeatherArgs γ) (hargs dargs : ForecastArgs) :
    (((Geolocator.get svc).2).1 = 200 ∨ ((Geolocator.get svc).2).1 = 503) ∧
      (((CurrentWeather.get svc cargs).2).1 = 200 ∨
        ((CurrentWeather.get svc cargs).2).1 = 503) ∧
      (((HourlyForecast.get svc hargs).2).1 = 200 ∨
        ((HourlyForecast.get svc hargs).2).1 = 503) ∧
      (((DailyForecast.get svc dargs).2).1 = 200 ∨
        ((DailyForecast.get svc dargs).2).1 = 503) :=
  ⟨code_200_or_503_of_goodEnvelope (goodEnvelope_geolocator svc),
    code_200_or_503_of_goodEnvelope (goodEnvelope_current svc cargs),
    code_200_or_503_of_goodEnvelope (goodEnvelope_hourly svc hargs),
    code_200_or_503_of_goodEnvelope (goodEnvelope_daily svc dargs)⟩

/-- C2: for every request to any of the three weather endpoints that
takes the fallback path (incomplete location arguments), if the
geolocation client fails then the handler returns the 503 envelope
`{status:503, type:EXT_ERR, error_message:"Failed to make geolocation
request"}`, and the trace of outbound calls is exactly
`[getLocation]` — the weather client is never invoked. -/
theorem C2_geolocation_failure_short_circuits {γ δ : Type} (svc : Services γ δ)
    (cargs : CurrentWeatherArgs γ) (hargs dargs : ForecastArgs)
    (hgeo : svc.getLocation.1 = none)
    (hc : cargs.lat = none ∨ cargs.lon = none)
    (hh : hargs.state = none ∨ hargs.city = none)
    (hd : dargs.state = none ∨ dargs.city = none) :
    CurrentWeather.get svc cargs =
        ({ status := 503, type := some http_codes.EXT_ERR,
           error_message := some "Failed to make geolocation request" }, 503,
         [Call.getLocation]) ∧
      HourlyForecast.get svc hargs =
        ({ status := 503, type := some http_codes.EXT_ERR,
           error_message := some "Failed to make geolocation request" }, 503,
         [Call.getLocation]) ∧
      DailyForecast.get svc dargs =
        ({ status := 503, type := some http_codes.EXT_ERR,
           error_message := some "Failed to make geolocation request" }, 503,
         [Call.getLocation]) := by
  refine ⟨?_, ?_, ?_⟩
  · obtain ⟨la, lo⟩ := cargs
    cases la <;> cases lo <;>
      simp_all [CurrentWeather.get, http_codes.c503]
  · obtain ⟨st, ci⟩ := hargs
    cases st <;> cases ci <;>
      simp_all [HourlyForecast.get, http_codes.c503]
  · obtain ⟨st, ci⟩ := dargs
    cases st <;> cases ci <;>
      simp_all [DailyForecast.get, http_codes.c503]

/-- A concrete service environment whose geolocation call fails while
every weather call would succeed. -/
def svcGeoFail : Services Int Nat where
  getLocation := (none, 0)
  getCurrentWeather := fun _ _ => (some 1, 200)
  getHourlyForecast := fun _ _ => (some 2, 200)
  getDailyForecast := fun _ _ => (some 3, 200)

/-- Witness for C2 at a concrete input. -/
theorem C2_geolocation_failure_short_circuits_witness :
    svcGeoFail.getLocation.1 = none ∧
      (({ lat := none, lon := none } : CurrentWeatherArgs Int).lat = none ∨
        ({ lat := none, lon := none } : CurrentWeatherArgs Int).lon = none) ∧
      (({ state := none, city := none } : ForecastArgs).state = none ∨
        ({ state := none, city := none } : ForecastArgs).city = none) ∧
      (CurrentWeather.get svcGeoFail { lat := none, lon := none } =
          ({ status := 503, type := some http_codes.EXT_ERR,
             error_message := some "Failed to make geolocation request" }, 503,
           [Call.getLocation]) ∧
        HourlyForecast.get svcGeoFail { state := none, city := none } =
          ({ status := 503, type := some http_codes.EXT_ERR,
             error_message := some "Failed to make geolocation request" }, 503,
           [Call.getLocation]) ∧
        DailyForecast.get svcGeoFail { state := none, city := none } =
          ({ status := 503, type := some http_codes.EXT_ERR,
             error_message := some "Failed to make geolocation request" }, 503,
           [Call.getLocation])) :=
  ⟨rfl, Or.inl rfl, Or.inl rfl,
    C2_geolocation_failure_short_circuits svcGeoFail
      { lat := none, lon := none } { state := none, city := none }
      { state := none, city := none } rfl (Or.inl rfl) (Or.inl rfl) (Or.inl rfl)⟩

/-- The geolocation client is invoked exactly once, and before any other
outbound call (in particular before any weather-client call): the trace
starts with `getLocation` and `getLocation` never occurs again. -/
def geolocationOnceFirst {γ : Type} (calls : List (Call γ)) : Prop :=
  ∃ rest, calls = Call.getLocation :: rest ∧ Call.getLocation ∉ rest

theorem geolocationOnceFirst_current_fallback {γ δ : Type} (svc : Services γ δ) :
    geolocationOnceFirst ((CurrentWeather.get svc { lat := none, lon := none }).2).2 := by
  cases hg : svc.getLocation.1 with
  | none => exact ⟨[], by simp [CurrentWeather.get, hg], by simp⟩
  | some loc =>
      cases hw : (svc.getCurrentWeather loc.latitude loc.longitude).1 with
      | none =>
          refine ⟨[Call.getCurrentWeather loc.latitude loc.longitude],
            by simp [CurrentWeather.get, hg, CurrentWeather.fetch, hw], by simp⟩
      | some w =>
          refine ⟨[Call.getCurrentWeather loc.latitude loc.longitude],
            by simp [CurrentWeather.get, hg, CurrentWeather.fetch, hw], by simp⟩

theorem geolocationOnceFirst_hourly_fallback {γ δ : Type} (svc : Services γ δ) :
    geolocationOnceFirst ((HourlyForecast.get svc { state := none, city := none }).2).2 := by
  cases hg : svc.getLocation.1 with
  | none => exact ⟨[], by simp [HourlyForecast.get, hg], by simp⟩
  | some loc =>
      cases hw : (svc.getHourlyForecast loc.region_code loc.city).1 with
      | none =>
          refine ⟨[Call.getHourlyForecast loc.region_code loc.city],
            by simp [HourlyForecast.get, hg, HourlyForecast.fetch, hw], by simp⟩
      | some w =>
          refine ⟨[Call.getHourlyForecast loc.region_code loc.city],
            by simp [HourlyForecast.get, hg, HourlyForecast.fetch, hw], by simp⟩

theorem geolocationOnceFirst_daily_fallback {γ δ : Type} (svc : Services γ δ) :
    geolocationOnceFirst ((DailyForecast.get svc { state := none, city := none }).2).2 := by
  cases hg : svc.getLocation.1 with
  | none => exact ⟨[], by simp [DailyForecast.get, hg], by simp⟩
  | some loc =>
      cases hw : (svc.getDailyForecast loc.region_code loc.city).1 with
      | none =>
          refine ⟨[Call.getDailyForecast loc.region_code loc.city],
            by simp [DailyForecast.get, hg, DailyForecast.fetch, hw], by simp⟩
      | some w =>
          refine ⟨[Call.getDailyForecast loc.region_code loc.city],
            by simp [DailyForecast.get, hg, DailyForecast.fetch, hw], by simp⟩

/-- C5: a request with exactly one of its two location parameters
supplied behaves identically to a request with both absent — the run
(envelope, HTTP code and outbound calls) is the same as for empty
arguments, so the supplied partial value is not used, and the geolocation
client is invoked exactly once, before any weather-client call. -/
theorem C5_partial_params_equal_absent {γ δ : Type} (svc : Services γ δ)
    (cargs : CurrentWeatherArgs γ) (hargs dargs : ForecastArgs)
    (hc : (cargs.lat = none ∧ (cargs.lon).isSome = true) ∨
      ((cargs.lat).isSome = true ∧ cargs.lon = none))
    (hh : (hargs.state = none ∧ (hargs.city).isSome = true) ∨
      ((hargs.state).isSome = true ∧ hargs.city = none))
    (hd : (dargs.state = none ∧ (dargs.city).isSome = true) ∨
      ((dargs.state).isSome = true ∧ dargs.city = none)) :
    (CurrentWeather.get svc cargs = CurrentWeather.get svc { lat := none, lon := none } ∧
        geolocationOnceFirst ((CurrentWeather.get svc cargs).2).2) ∧
      (HourlyForecast.get svc hargs = HourlyForecast.get svc { state := none, city := none } ∧
        geolocationOnceFirst ((HourlyForecast.get svc hargs).2).2) ∧
      (DailyForecast.get svc dargs = DailyForecast.get svc { state := none, city := none } ∧
        geolocationOnceFirst ((DailyForecast.get svc dargs).2).2) := by
  refine ⟨?_, ?_, ?_⟩
  · obtain ⟨la, lo⟩ := cargs
    cases la <;> cases lo
    · simp_all
    · exact ⟨rfl, geolocationOnceFirst_current_fallback svc⟩
    · exact ⟨rfl, geolocationOnceFirst_current_fallback svc⟩
    · simp_all
  · obtain ⟨st, ci⟩ := hargs
    cases st <;> cases ci
    · simp_all
    · exact ⟨rfl, geolocationOnceFirst_hourly_fallback svc⟩
    · exact ⟨rfl, geolocationOnceFirst_hourly_fallback svc⟩
    · simp_all
  · obtain ⟨st, ci⟩ := dargs
    cases st <;> cases ci
    · simp_all
    · exact ⟨rfl, geolocationOnceFirst_daily_fallback svc⟩
    · exact ⟨rfl, geolocationOnceFirst_daily_fallback svc⟩
    · simp_all

/-- A concrete service environment where every outbound call succeeds. -/
def svcAllOk : Services Int Nat where
  getLocation :=
    (some { latitude := 34, longitude := -118, region_code := "CA",
            city := "Thousand Oaks" }, 200)
  getCurrentWeather := fun _ _ => (some 1, 200)
  getHourlyForecast := fun _ _ => (some 2, 200)
  getDailyForecast := fun _ _ => (some 3, 200)

/-- Witness for C5 at a concrete input. -/
theorem C5_partial_params_equal_absent_witness :
    ((({ lat := none, lon := some 7 } : CurrentWeatherArgs Int).lat = none ∧
        ((({ lat := none, lon := some 7 } : CurrentWeatherArgs Int).lon).isSome = true)) ∨
      (((({ lat := none, lon := some 7 } : CurrentWeatherArgs Int).lat).isSome = true) ∧
        ({ lat := none, lon := some 7 } : CurrentWeatherArgs Int).lon = none)) ∧
      (CurrentWeather.get svcAllOk { lat := none, lon := some 7 } =
          CurrentWeather.get svcAllOk { lat := none, lon := none } ∧
        geolocationOnceFirst
          ((CurrentWeather.get svcAllOk { lat := none, lon := some 7 }).2).2) :=
  ⟨Or.inl ⟨rfl, rfl⟩,
    (C5_partial_params_equal_absent svcAllOk { lat := none, lon := some 7 }
        { state := some "CA", city := none } { state := none, city := some "LA" }
        (Or.inl ⟨rfl, rfl⟩) (Or.inr ⟨rfl, rfl⟩) (Or.inl ⟨rfl, rfl⟩)).1⟩

theorem currentFetch_weather_failure {γ δ : Type} (svc : Services γ δ)
    (a b lat lon : γ) (calls : List (Call γ))
    (hmem : Call.getCurrentWeather lat lon ∈ ((CurrentWeather.fetch svc a b calls).2).2)
    (hcalls : Call.getCurrentWeather lat lon ∉ calls)
    (hfail : (svc.getCurrentWeather lat lon).1 = none) :
    (CurrentWeather.fetch svc a b calls).1 =
      { status := 503, type := some http_codes.EXT_ERR,
        error_message := some "Failed to make weather request" } ∧
    ((CurrentWeather.fetch svc a b calls).2).1 = 503 := by
  cases hw : (svc.getCurrentWeather a b).1 with
  | none =>
      constructor <;> simp [CurrentWeather.fetch, hw, http_codes.c503]
  | some w =>
      exfalso
      simp [CurrentWeather.fetch, hw] at hmem
      rcases hmem with h | ⟨h1, h2⟩
      · exact hcalls h
      · subst h1; subst h2; rw [hw] at hfail; exact Option.noConfusion hfail

theorem hourlyFetch_weather_failure {γ δ : Type} (svc : Services γ δ)
    (a b st ci : String) (calls : List (Call γ))
    (hmem : Call.getHourlyForecast st ci ∈ ((HourlyForecast.fetch svc a b calls).2).2)
    (hcalls : Call.getHourlyForecast st ci ∉ calls)
    (hfail : (svc.getHourlyForecast st ci).1 = none) :
    (HourlyForecast.fetch svc a b calls).1 =
      { status := 503, type := some http_codes.EXT_ERR,
        error_message := some "Failed to make hourly forecast request" } ∧
    ((HourlyForecast.fetch svc a b calls).2).1 = 503 := by
  cases hw : (svc.getHourlyForecast a b).1 with
  | none =>
      constructor <;> simp [HourlyForecast.fetch, hw, http_codes.c503]
  | some w =>
      exfalso
      simp [HourlyForecast.fetch, hw] at hmem
      rcases hmem with h | ⟨h1, h2⟩
      · exact hcalls h
      · subst h1; subst h2; rw [hw] at hfail; exact Option.noConfusion hfail

theorem dailyFetch_weather_failure {γ δ : Type} (svc : Services γ δ)
    (a b st ci : String) (calls : List (Call γ))
    (hmem : Call.getDailyForecast st ci ∈ ((DailyForecast.fetch svc a b calls).2).2)
    (hcalls : Call.getDailyForecast st ci ∉ calls)
    (hfail : (svc.getDailyForecast st ci).1 = none) :
    (DailyForecast.fetch svc a b calls).1 =
      { status := 503, type := some http_codes.EXT_ERR,
        error_message := some "Failed to make daily forecast request" } ∧
    ((DailyForecast.fetch svc a b calls).2).1 = 503 := by
  cases hw : (svc.getDailyForecast a b).1 with
  | none =>
      constructor <;> simp [DailyForecast.fetch, hw, http_codes.c503]
  | some w =>
      exfalso
      simp [DailyForecast.fetch, hw] at hmem
      rcases hmem with h | ⟨h1, h2⟩
      · exact hcalls h
      · subst h1; subst h2; rw [hw] at hfail; exact Option.noConfusion hfail

/-- C7: if a handler's weather-client call fails (the call appears in the
run's trace and the client returns `none` for it), the handler returns a
503 envelope with type `EXT_ERR` and the fixed endpoint-specific error
message: "Failed to make weather request" for `/weather/current`,
"Failed to make hourly forecast request" for hourly and "Failed to make
daily forecast request" for daily. -/
theorem C7_weather_failure_messages {γ δ : Type} (svc : Services γ δ)
    (cargs : CurrentWeatherArgs γ) (hargs dargs : ForecastArgs) :
    (∀ lat lon,
        Call.getCurrentWeather lat lon ∈ ((CurrentWeather.get svc cargs).2).2 →
        (svc.getCurrentWeather lat lon).1 = none →
        (CurrentWeather.get svc cargs).1 =
          { status := 503, type := some http_codes.EXT_ERR,
            error_message := some "Failed to make weather request" } ∧
        ((CurrentWeather.get svc cargs).2).1 = 503) ∧
    (∀ st ci,
        Call.getHourlyForecast st ci ∈ ((HourlyForecast.get svc hargs).2).2 →
        (svc.getHourlyForecast st ci).1 = none →
        (HourlyForecast.get svc hargs).1 =
          { status := 503, type := some http_codes.EXT_ERR,
            error_message := some "Failed to make hourly forecast request" } ∧
        ((HourlyForecast.get svc hargs).2).1 = 503) ∧
    (∀ st ci,
        Call.getDailyForecast st ci ∈ ((DailyForecast.get svc dargs).2).2 →
        (svc.getDailyForecast st ci).1 = none →
        (DailyForecast.get svc dargs).1 =
          { status := 503, type := some http_codes.EXT_ERR,
            error_message := some "Failed to make daily forecast request" } ∧
        ((DailyForecast.get svc dargs).2).1 = 503) := by
  refine ⟨?_, ?_, ?_⟩
  · intro lat lon hmem hfail
    obtain ⟨la, lo⟩ := cargs
    cases la <;> cases lo <;>
      try exact currentFetch_weather_failure svc _ _ lat lon [] hmem (by simp) hfail
    all_goals
      cases hg : svc.getLocation.1 with
      | none => simp [CurrentWeather.get, hg] at hmem
      | some loc =>
          simp only [CurrentWeather.get, hg] at hmem ⊢
          exact currentFetch_weather_failure svc _ _ lat lon [Call.getLocation]
            hmem (by simp) hfail
  · intro st ci hmem hfail
    obtain ⟨s0, c0⟩ := hargs
    cases s0 <;> cases c0 <;>
      try exact hourlyFetch_weather_failure svc _ _ st ci [] hmem (by simp) hfail
    all_goals
      cases hg : svc.getLocation.1 with
      | none => simp [HourlyForecast.get, hg] at hmem
      | some loc =>
          simp only [HourlyForecast.get, hg] at hmem ⊢
          exact hourlyFetch_weather_failure svc _ _ st ci [Call.getLocation]
            hmem (by simp) hfail
  · intro st ci hmem hfail
    obtain ⟨s0, c0⟩ := dargs
    cases s0 <;> cases c0 <;>
      try exact dailyFetch_weather_failure svc _ _ st ci [] hmem (by simp) hfail
    all_goals
      cases hg : svc.getLocation.1 with
      | none => simp [DailyForecast.get, hg] at hmem
      | some loc =>
          simp only [DailyForecast.get, hg] at hmem ⊢
          exact dailyFetch_weather_failure svc _ _ st ci [Call.getLocation]
            hmem (by simp) hfail

/-- A concrete service environment where geolocation succeeds and every
weather call fails. -/
def svcWeatherFail : Services Int Nat where
  getLocation :=
    (some { latitude := 34, longitude := -118, region_code := "CA",
            city := "Thousand Oaks" }, 200)
  getCurrentWeather := fun _ _ => (none, 503)
  getHourlyForecast := fun _ _ => (none, 503)
  getDailyForecast := fun _ _ => (none, 503)

/-- Witness for C7 at a concrete input. -/
theorem C7_weather_failure_messages_witness :
    Call.getCurrentWeather 1 2 ∈
        ((CurrentWeather.get svcWeatherFail { lat := some 1, lon := some 2 }).2).2 ∧
      (svcWeatherFail.getCurrentWeather 1 2).1 = none ∧
      ((CurrentWeather.get svcWeatherFail { lat := some 1, lon := some 2 }).1 =
          { status := 503, type := some http_codes.EXT_ERR,
            error_message := some "Failed to make weather request" } ∧
        ((CurrentWeather.get svcWeatherFail { lat := some 1, lon := some 2 }).2).1 = 503) :=
  ⟨by decide, rfl,
    (C7_weather_failure_messages svcWeatherFail { lat := some 1, lon := some 2 }
        { state := none, city := none } { state := none, city := none }).1
      1 2 (by decide) rfl⟩

theorem hourlyFetch_success_data {γ δ : Type} (svc : Services γ δ) (s c : String)
    (calls : List (Call γ))
    (hcode : ((HourlyForecast.fetch svc s c calls).2).1 = 200) :
    ∃ w, (svc.getHourlyForecast s c).1 = some w ∧
      (HourlyForecast.fetch svc s c calls).1.data = some (Payload.weather w) := by
  cases hw : (svc.getHourlyForecast s c).1 with
  | none => simp [HourlyForecast.fetch, hw] at hcode
  | some w => exact ⟨w, rfl, by simp [HourlyForecast.fetch, hw]⟩

theorem dailyFetch_success_data {γ δ : Type} (svc : Services γ δ) (s c : String)
    (calls : List (Call γ))
    (hcode : ((DailyForecast.fetch svc s c calls).2).1 = 200) :
    ∃ w, (svc.getDailyForecast s c).1 = some w ∧
      (DailyForecast.fetch svc s c calls).1.data = some (Payload.weather w) := by
  cases hw : (svc.getDailyForecast s c).1 with
  | none => simp [DailyForecast.fetch, hw] at hcode
  | some w => exact ⟨w, rfl, by simp [DailyForecast.fetch, hw]⟩

/-- C9: under the weather client's contract (every successful hourly
result has exactly 36 entries, every successful daily result exactly 10),
each successful (HTTP 200) forecast response carries a `data` payload
which is such a sequence: 36 entries for hourly, 10 for daily — the
handlers pass the result through unchanged. -/
theorem C9_forecast_success_lengths {γ ε : Type} (svc : Services γ (List ε))
    (hargs dargs : ForecastArgs)
    (h36 : ∀ s c w, (svc.getHourlyForecast s c).1 = some w → w.length = 36)
    (h10 : ∀ s c w, (svc.getDailyForecast s c).1 = some w → w.length = 10) :
    (((HourlyForecast.get svc hargs).2).1 = 200 →
      ∃ w, (HourlyForecast.get svc hargs).1.data = some (Payload.weather w) ∧
        w.length = 36) ∧
    (((DailyForecast.get svc dargs).2).1 = 200 →
      ∃ w, (DailyForecast.get svc dargs).1.data = some (Payload.weather w) ∧
        w.length = 10) := by
  constructor
  · intro hcode
    obtain ⟨s0, c0⟩ := hargs
    cases s0 <;> cases c0 <;>
      try (obtain ⟨w, hw, hdata⟩ := hourlyFetch_success_data svc _ _ [] hcode
           exact ⟨w, hdata, h36 _ _ w hw⟩)
    all_goals
      cases hg : svc.getLocation.1 with
      | none => simp [HourlyForecast.get, hg] at hcode
      | some loc =>
          simp only [HourlyForecast.get, hg] at hcode ⊢
          obtain ⟨w, hw, hdata⟩ :=
            hourlyFetch_success_data svc _ _ [Call.getLocation] hcode
          exact ⟨w, hdata, h36 _ _ w hw⟩
  · intro hcode
    obtain ⟨s0, c0⟩ := dargs
    cases s0 <;> cases c0 <;>
      try (obtain ⟨w, hw, hdata⟩ := dailyFetch_success_data svc _ _ [] hcode
           exact ⟨w, hdata, h10 _ _ w hw⟩)
    all_goals
      cases hg : svc.getLocation.1 with
      | none => simp [DailyForecast.get, hg] at hcode
      | some loc =>
          simp only [DailyForecast.get, hg] at hcode ⊢
          obtain ⟨w, hw, hdata⟩ :=
            dailyFetch_success_data svc _ _ [Call.getLocation] hcode
          exact ⟨w, hdata, h10 _ _ w hw⟩

/-- A concrete service environment whose forecast calls honour the
contract: 36 hourly entries, 10 daily entries. -/
def svcForecastOk : Services Int (List Nat) where
  getLocation :=
    (some { latitude := 34, longitude := -118, region_code := "CA",
            city := "Thousand Oaks" }, 200)
  getCurrentWeather := fun _ _ => (some [0], 200)
  getHourlyForecast := fun _ _ => (some (List.replicate 36 0), 200)
  getDailyForecast := fun _ _ => (some (List.replicate 10 0), 200)

/-- Witness for C9 at a concrete input. -/
theorem C9_forecast_success_lengths_witness :
    (∀ s c w, (svcForecastOk.getHourlyForecast s c).1 = some w → w.length = 36) ∧
    (∀ s c w, (svcForecastOk.getDailyForecast s c).1 = some w → w.length = 10) ∧
    ((((HourlyForecast.get svcForecastOk { state := none, city := none }).2).1 = 200 →
        ∃ w, (HourlyForecast.get svcForecastOk { state := none, city := none }).1.data =
            some (Payload.weather w) ∧ w.length = 36) ∧
      (((DailyForecast.get svcForecastOk { state := none, city := none }).2).1 = 200 →
        ∃ w, (DailyForecast.get svcForecastOk { state := none, city := none }).1.data =
            some (Payload.weather w) ∧ w.length = 10)) := by
  have h36 : ∀ s c w, (svcForecastOk.getHourlyForecast s c).1 = some w →
      w.length = 36 := by
    intro s c w hw
    simp only [svcForecastOk, Option.some.injEq] at hw
    subst hw
    simp
  have h10 : ∀ s c w, (svcForecastOk.getDailyForecast s c).1 = some w →
      w.length = 10 := by
    intro s c w hw
    simp only [svcForecastOk, Option.some.injEq] at hw
    subst hw
    simp
  exact ⟨h36, h10,
    C9_forecast_success_lengths svcForecastOk { state := none, city := none }
      { state := none, city := none } h36 h10⟩

theorem currentFetch_congr {γ δ : Type} (svc₁ svc₂ : Services γ δ)
    (hcw : ∀ a b, (svc₁.getCurrentWeather a b).1 = (svc₂.getCurrentWeather a b).1)
    (a b : γ) (calls : List (Call γ)) :
    CurrentWeather.fetch svc₁ a b calls = CurrentWeather.fetch svc₂ a b calls := by
  unfold CurrentWeather.fetch
  rw [hcw a b]

theorem hourlyFetch_congr {γ δ : Type} (svc₁ svc₂ : Services γ δ)
    (hhf : ∀ s c, (svc₁.getHourlyForecast s c).1 = (svc₂.getHourlyForecast s c).1)
    (a b : String) (calls : List (Call γ)) :
    HourlyForecast.fetch svc₁ a b calls = HourlyForecast.fetch svc₂ a b calls := by
  unfold HourlyForecast.fetch
  rw [hhf a b]

theorem dailyFetch_congr {γ δ : Type} (svc₁ svc₂ : Services γ δ)
    (hdf : ∀ s c, (svc₁.getDailyForecast s c).1 = (svc₂.getDailyForecast s c).1)
    (a b : String) (calls : List (Call γ)) :
    DailyForecast.fetch svc₁ a b calls = DailyForecast.fetch svc₂ a b calls := by
  unfold DailyForecast.fetch
  rw [hdf a b]

/-- C10: the status component (second element) of each service-call pair
has no influence on any handler: two service environments that agree on
the first components of every call produce identical results (envelope,
HTTP code and calls) on every endpoint and every argument — success
versus failure is decided solely by whether the first component is
`none`. -/
theorem C10_status_components_no_influence {γ δ : Type} (svc₁ svc₂ : Services γ δ)
    (hg : (svc₁.getLocation).1 = (svc₂.getLocation).1)
    (hcw : ∀ a b, (svc₁.getCurrentWeather a b).1 = (svc₂.getCurrentWeather a b).1)
    (hhf : ∀ s c, (svc₁.getHourlyForecast s c).1 = (svc₂.getHourlyForecast s c).1)
    (hdf : ∀ s c, (svc₁.getDailyForecast s c).1 = (svc₂.getDailyForecast s c).1)
    (cargs : CurrentWeatherArgs γ) (hargs dargs : ForecastArgs) :
    Geolocator.get svc₁ = Geolocator.get svc₂ ∧
      CurrentWeather.get svc₁ cargs = CurrentWeather.get svc₂ cargs ∧
      HourlyForecast.get svc₁ hargs = HourlyForecast.get svc₂ hargs ∧
      DailyForecast.get svc₁ dargs = DailyForecast.get svc₂ dargs := by
  refine ⟨?_, ?_, ?_, ?_⟩
  · unfold Geolocator.get
    rw [hg]
  · obtain ⟨la, lo⟩ := cargs
    cases la <;> cases lo <;>
      try exact currentFetch_congr svc₁ svc₂ hcw _ _ []
    all_goals
      simp only [CurrentWeather.get]
      rw [hg]
      cases hg2 : (svc₂.getLocation).1 with
      | none => rfl
      | some loc => exact currentFetch_congr svc₁ svc₂ hcw _ _ [Call.getLocation]
  · obtain ⟨s0, c0⟩ := hargs
    cases s0 <;> cases c0 <;>
      try exact hourlyFetch_congr svc₁ svc₂ hhf _ _ []
    all_goals
      simp only [HourlyForecast.get]
      rw [hg]
      cases hg2 : (svc₂.getLocation).1 with
      | none => rfl
      | some loc => exact hourlyFetch_congr svc₁ svc₂ hhf _ _ [Call.getLocation]
  · obtain ⟨s0, c0⟩ := dargs
    cases s0 <;> cases c0 <;>
      try exact dailyFetch_congr svc₁ svc₂ hdf _ _ []
    all_goals
      simp only [DailyForecast.get]
      rw [hg]
      cases hg2 : (svc₂.getLocation).1 with
      | none => rfl
      | some loc => exact dailyFetch_congr svc₁ svc₂ hdf _ _ [Call.getLocation]

/-- The same first components as `svcAllOk`, with every status component
changed. -/
def svcAllOkAltStatus : Services Int Nat where
  getLocation :=
    (some { latitude := 34, longitude := -118, region_code := "CA",
            city := "Thousand Oaks" }, 0)
  getCurrentWeather := fun _ _ => (some 1, 0)
  getHourlyForecast := fun _ _ => (some 2, 0)
  getDailyForecast := fun _ _ => (some 3, 0)

/-- Witness for C10 at a concrete input. -/
theorem C10_status_components_no_influence_witness :
    (svcAllOk.getLocation).1 = (svcAllOkAltStatus.getLocation).1 ∧
      (∀ a b, (svcAllOk.getCurrentWeather a b).1 =
        (svcAllOkAltStatus.getCurrentWeather a b).1) ∧
      (Geolocator.get svcAllOk = Geolocator.get svcAllOkAltStatus ∧
        CurrentWeather.get svcAllOk { lat := none, lon := none } =
          CurrentWeather.get svcAllOkAltStatus { lat := none, lon := none } ∧
        HourlyForecast.get svcAllOk { state := none, city := none } =
          HourlyForecast.get svcAllOkAltStatus { state := none, city := none } ∧
        DailyForecast.get svcAllOk { state := none, city := none } =
          DailyForecast.get svcAllOkAltStatus { state := none, city := none }) :=
  ⟨rfl, fun _ _ => rfl,
    C10_status_components_no_influence svcAllOk svcAllOkAltStatus rfl
      (fun _ _ => rfl) (fun _ _ => rfl) (fun _ _ => rfl)
      { lat := none, lon := none } { state := none, city := none }
      { state := none, city := none }⟩

/-- A concrete service environment whose geolocation result has a city
containing a space. -/
def svcSpacedCity : Services Int Nat where
  getLocation :=
    (some { latitude := 34, longitude := -118, region_code := "CA",
            city := "San Fransisco" }, 200)
  getCurrentWeather := fun _ _ => (some 1, 200)
  getHourlyForecast := fun _ _ => (some 2, 200)
  getDailyForecast := fun _ _ => (some 3, 200)

/-- C1: the claim says the space-to-underscore normalization of the city
is applied identically whether the city was supplied by the caller or
obtained from the resolved location.  Evaluating the code at a resolved
location whose city is `"San Fransisco"`: both forecast handlers forward
the city to the weather client with its space intact, while the same city
supplied by the caller is forwarded as `"San_Fransisco"` — the
normalization is applied only on the caller path. -/
theorem C1_resolved_city_not_normalized :
    ((HourlyForecast.get svcSpacedCity { state := none, city := none }).2).2 =
        [Call.getLocation, Call.getHourlyForecast "CA" "San Fransisco"] ∧
      ((DailyForecast.get svcSpacedCity { state := none, city := none }).2).2 =
        [Call.getLocation, Call.getDailyForecast "CA" "San Fransisco"] ∧
      ((HourlyForecast.get svcSpacedCity
            { state := some "CA", city := some "San Fransisco" }).2).2 =
        [Call.getHourlyForecast "CA" "San_Fransisco"] ∧
      "San Fransisco" ≠ "San_Fransisco" :=
  ⟨rfl, rfl, rfl, by decide⟩

end SmartMirror
